import Mathlib

/-!
GitHub scope configuration (`backend/plugins/github/models/scope_config.go`).

A shallow embedding of the `GithubScopeConfig` entity: its value type, its two
methods, and its field declarations with their struct tags kept verbatim.  The
tags are read the way the consuming libraries read them (`reflect.StructTag`,
`encoding/json`, `mapstructure`, `gorm`, `validator`), so that what the entity
declares about its wire keys, its storage columns, its unique index and its
validation rules can be computed from the declaration itself.
-/

namespace Github

/-! ## Values -/

/-- Decoded JSON document values, the contents of a `datatypes.JSONMap`
(`map[string]interface{}`); numbers are kept as their literal text. -/
inductive JSONValue where
  | null : JSONValue
  | bool : Bool → JSONValue
  | number : String → JSONValue
  | string : String → JSONValue
  | array : List JSONValue → JSONValue
  | object : List (String × JSONValue) → JSONValue

/-- The type `datatypes.JSONMap`: a key-value document. -/
abbrev JSONMap := List (String × JSONValue)

/-- Modelled from the spec: the embedded `common.ScopeConfig`, whose declaration
is not part of this source file.  The spec names the shared attributes `id`
(primary identity) and `connectionId` (the owning connection); the accessor of
this file reads `ConnectionId` as a `uint64`. -/
structure ScopeConfig where
  ID : Nat
  ConnectionId : Nat

/-- The struct `GithubScopeConfig`, field for field; `Refdiff` is `none` for a
nil map. -/
structure GithubScopeConfig extends ScopeConfig where
  Name : String
  PrType : String
  PrComponent : String
  PrBodyClosePattern : String
  IssueSeverity : String
  IssuePriority : String
  IssueComponent : String
  IssueTypeBug : String
  IssueTypeIncident : String
  IssueTypeRequirement : String
  DeploymentPattern : String
  ProductionPattern : String
  EnvNamePattern : String
  Refdiff : Option JSONMap

/-! ## Methods -/

/-- The method `GetConnectionId` (value receiver): `return sc.ConnectionId`. -/
def GetConnectionId (sc : GithubScopeConfig) : Nat :=
  sc.ConnectionId

/-- The method `TableName`: its receiver is unnamed and unused. -/
def TableName (_ : GithubScopeConfig) : String :=
  "_tool_github_scope_configs"

/-! ## Field declarations -/

/-- One line of a Go struct declaration: field name, type and raw tag. -/
structure StructField where
  Name : String
  GoType : String
  Tag : String
deriving DecidableEq

/-- The anonymous first field of `GithubScopeConfig`. -/
def GithubScopeConfig_embedded : StructField :=
  ⟨"ScopeConfig", "common.ScopeConfig", r#"mapstructure:",squash" json:",inline" gorm:"embedded""#⟩

/-- The fourteen named fields `GithubScopeConfig` declares, in source order. -/
def GithubScopeConfig_fields : List StructField :=
  [ ⟨"Name", "string", r#"mapstructure:"name" json:"name" gorm:"type:varchar(255);index:idx_name_github,unique" validate:"required""#⟩,
    ⟨"PrType", "string", r#"mapstructure:"prType,omitempty" json:"prType" gorm:"type:varchar(255)""#⟩,
    ⟨"PrComponent", "string", r#"mapstructure:"prComponent,omitempty" json:"prComponent" gorm:"type:varchar(255)""#⟩,
    ⟨"PrBodyClosePattern", "string", r#"mapstructure:"prBodyClosePattern,omitempty" json:"prBodyClosePattern" gorm:"type:varchar(255)""#⟩,
    ⟨"IssueSeverity", "string", r#"mapstructure:"issueSeverity,omitempty" json:"issueSeverity" gorm:"type:varchar(255)""#⟩,
    ⟨"IssuePriority", "string", r#"mapstructure:"issuePriority,omitempty" json:"issuePriority" gorm:"type:varchar(255)""#⟩,
    ⟨"IssueComponent", "string", r#"mapstructure:"issueComponent,omitempty" json:"issueComponent" gorm:"type:varchar(255)""#⟩,
    ⟨"IssueTypeBug", "string", r#"mapstructure:"issueTypeBug,omitempty" json:"issueTypeBug" gorm:"type:varchar(255)""#⟩,
    ⟨"IssueTypeIncident", "string", r#"mapstructure:"issueTypeIncident,omitempty" json:"issueTypeIncident" gorm:"type:varchar(255)""#⟩,
    ⟨"IssueTypeRequirement", "string", r#"mapstructure:"issueTypeRequirement,omitempty" json:"issueTypeRequirement" gorm:"type:varchar(255)""#⟩,
    ⟨"DeploymentPattern", "string", r#"mapstructure:"deploymentPattern,omitempty" json:"deploymentPattern" gorm:"type:varchar(255)""#⟩,
    ⟨"ProductionPattern", "string", r#"mapstructure:"productionPattern,omitempty" json:"productionPattern" gorm:"type:varchar(255)""#⟩,
    ⟨"EnvNamePattern", "string", r#"mapstructure:"envNamePattern,omitempty" json:"envNamePattern" gorm:"type:varchar(255)""#⟩,
    ⟨"Refdiff", "datatypes.JSONMap", r#"mapstructure:"refdiff,omitempty" json:"refdiff" swaggertype:"object" format:"json""#⟩ ]

/-! ## Reading struct tags -/

/-- The double quote character. -/
def dquote : Char := Char.ofNat 34

/-- The backslash character. -/
def bslash : Char := Char.ofNat 92

/-- Drop leading spaces (the first loop of `StructTag.Lookup`). -/
def skipSpaces : List Char → List Char
  | [] => []
  | c :: cs => if c = ' ' then skipSpaces cs else c :: cs

/-- Scan a tag key up to a colon, quote, space or control character; returns the
key and what follows it. -/
def scanKey : List Char → List Char × List Char
  | [] => ([], [])
  | c :: cs =>
    if 32 < c.toNat ∧ c ≠ ':' ∧ c ≠ dquote ∧ c.toNat ≠ 127 then
      ((c :: (scanKey cs).1), (scanKey cs).2)
    else ([], c :: cs)

/-- Scan the inside of a quoted tag value, the opening quote already consumed: a
backslash protects the next character.  Returns the raw text between the quotes
and what follows the closing quote, or `none` when the quote is never closed. -/
def scanQuoted : List Char → Option (List Char × List Char)
  | [] => none
  | [c] => if c = dquote then some ([], []) else none
  | c :: d :: cs =>
    if c = dquote then some ([], d :: cs)
    else if c = bslash then
      match scanQuoted cs with
      | some (q, r) => some (c :: d :: q, r)
      | none => none
    else
      match scanQuoted (d :: cs) with
      | some (q, r) => some (c :: q, r)
      | none => none

/-- The line feed character. -/
def newline : Char := Char.ofNat 10

/-- Value of a hexadecimal digit (`unhex` of `strconv`). -/
def unhex (c : Char) : Option Nat :=
  if 48 ≤ c.toNat ∧ c.toNat ≤ 57 then some (c.toNat - 48)
  else if 97 ≤ c.toNat ∧ c.toNat ≤ 102 then some (c.toNat - 87)
  else if 65 ≤ c.toNat ∧ c.toNat ≤ 70 then some (c.toNat - 55)
  else none

/-- Value of a run of digits in a base, `none` when one of them is no digit. -/
def digitsValue (base : Nat) (digit : Char → Option Nat) : List Char → Option Nat :=
  List.foldl (fun acc c =>
    match acc, digit c with
    | some v, some x => some (v * base + x)
    | _, _ => none) (some 0)

/-- Value of an octal digit. -/
def unoct (c : Char) : Option Nat :=
  if 48 ≤ c.toNat ∧ c.toNat ≤ 55 then some (c.toNat - 48) else none

/-- The check `utf8.ValidRune`: a code point that is no surrogate half. -/
def validRune (v : Nat) : Bool :=
  v < 0xD800 ∨ (0xDFFF < v ∧ v ≤ 0x10FFFF)

/-- The one-letter escapes of a double-quoted Go string. -/
def simpleEscape (e : Char) : Option Char :=
  if e = 'a' then some (Char.ofNat 7)
  else if e = 'b' then some (Char.ofNat 8)
  else if e = 'f' then some (Char.ofNat 12)
  else if e = 'n' then some (Char.ofNat 10)
  else if e = 'r' then some (Char.ofNat 13)
  else if e = 't' then some (Char.ofNat 9)
  else if e = 'v' then some (Char.ofNat 11)
  else if e = bslash then some bslash
  else if e = dquote then some dquote
  else none

/-- The loop of `strconv.Unquote` over the inside of a double-quoted string
(`UnquoteChar` at each step): a raw line feed or quote is refused, an escape is
decoded.  A `\x` or octal escape of a byte above 127 is no character by itself
and has no place in a text value, so it is refused here.  `fuel` bounds the
number of characters produced. -/
def unquoteLoop : Nat → List Char → Option (List Char)
  | 0, _ => none
  | _ + 1, [] => some []
  | fuel + 1, c :: cs =>
    if c = newline ∨ c = dquote then none
    else if c ≠ bslash then (unquoteLoop fuel cs).map fun r => c :: r
    else
      match cs with
      | [] => none
      | e :: rest =>
        if e = 'x' ∨ e = 'u' ∨ e = 'U' then
          let n := if e = 'x' then 2 else if e = 'u' then 4 else 8
          if rest.length < n then none
          else
            match digitsValue 16 unhex (rest.take n) with
            | none => none
            | some v =>
              if (e = 'x' ∧ v < 128) ∨ (e ≠ 'x' ∧ validRune v) then
                (unquoteLoop fuel (rest.drop n)).map fun r => Char.ofNat v :: r
              else none
        else if (unoct e).isSome then
          if rest.length < 2 then none
          else
            match digitsValue 8 unoct (e :: rest.take 2) with
            | none => none
            | some v =>
              if v < 128 then (unquoteLoop fuel (rest.drop 2)).map fun r => Char.ofNat v :: r
              else none
        else
          match simpleEscape e with
          | some r0 => (unquoteLoop fuel rest).map fun r => r0 :: r
          | none => none

/-- Unquote the raw text between the quotes of a tag value (`strconv.Unquote`). -/
def unquote (q : List Char) : Option (List Char) :=
  unquoteLoop (q.length + 1) q

/-- The loop of `reflect.StructTag.Lookup`; `fuel` bounds the number of
key-value pairs visited. -/
def lookupLoop : Nat → List Char → List Char → Option (List Char)
  | 0, _, _ => none
  | fuel + 1, key, tag =>
    match skipSpaces tag with
    | [] => none
    | t =>
      match scanKey t with
      | ([], _) => none
      | (name, c :: d :: rest) =>
        if c = ':' ∧ d = dquote then
          match scanQuoted rest with
          | none => none
          | some (q, rest2) =>
            if key = name then unquote q else lookupLoop fuel key rest2
        else none
      | (_, _) => none

/-- The conventional tag lookup `StructTag.Lookup`. -/
def StructTag_Lookup (tag : String) (key : String) : Option String :=
  (lookupLoop (tag.length + 1) key.toList tag.toList).map String.mk

/-- The conventional tag read `StructTag.Get`: the empty string when absent. -/
def StructTag_Get (tag : String) (key : String) : String :=
  (StructTag_Lookup tag key).getD ""

/-! ## Keys of the wire and binding representations -/

/-- Split at every occurrence of a one-character separator (`strings.Split`). -/
def splitOn (sep : Char) : List Char → List (List Char)
  | [] => [[]]
  | c :: cs =>
    if c = sep then [] :: splitOn sep cs
    else
      match splitOn sep cs with
      | [] => [[c]]
      | p :: ps => (c :: p) :: ps

/-- Join pieces with a one-character separator (`strings.Join`). -/
def joinWith (sep : Char) : List (List Char) → List Char
  | [] => []
  | [p] => p
  | p :: q :: ps => p ++ sep :: joinWith sep (q :: ps)

/-- The part of a tag value before its first comma. -/
def tagName (value : String) : String :=
  String.mk ((splitOn ',' value.toList).headD [])

/-- The comma-separated options that follow the name in a tag value. -/
def tagOptions (value : String) : List String :=
  ((splitOn ',' value.toList).tail).map String.mk

/-- The check `isValidTag` of `encoding/json`, on ASCII letters and digits. -/
def isValidTag (name : String) : Bool :=
  name ≠ "" ∧ name.toList.all (fun c => c ∈ "!#$%&()*+-./:;<=>?@[]^_\x7b|\x7d~ ".toList ∨ c.isAlphanum)

/-- The key `encoding/json` gives a named field: the tag name when valid, the Go
field name otherwise; `none` when the tag is `-` (field skipped). -/
def jsonKey (f : StructField) : Option String :=
  if StructTag_Get f.Tag "json" = "-" then none
  else if isValidTag (tagName (StructTag_Get f.Tag "json")) then
    some (tagName (StructTag_Get f.Tag "json"))
  else some f.Name

/-- The key `mapstructure` binds a field under: the tag name when non-empty, the
Go field name otherwise. -/
def mapstructureKey (f : StructField) : String :=
  if tagName (StructTag_Get f.Tag "mapstructure") = "" then f.Name
  else tagName (StructTag_Get f.Tag "mapstructure")

/-- Lower-camel-case form of a Go field name, as the spec words it: the name
with its first letter lower-cased. -/
def lowerFirst (name : String) : String :=
  match name.toList with
  | [] => ""
  | c :: cs => String.mk (c.toLower :: cs)

/-! ## Storage declarations (`gorm` tag) -/

/-- The white space of `unicode.IsSpace`: the ASCII and Latin-1 spaces and the
characters of the Unicode property White_Space. -/
def isSpace (c : Char) : Bool :=
  (9 ≤ c.toNat ∧ c.toNat ≤ 13) ∨ c.toNat = 32 ∨ c.toNat = 0x85 ∨ c.toNat = 0xA0 ∨
  c.toNat = 0x1680 ∨ (0x2000 ≤ c.toNat ∧ c.toNat ≤ 0x200A) ∨ c.toNat = 0x2028 ∨
  c.toNat = 0x2029 ∨ c.toNat = 0x202F ∨ c.toNat = 0x205F ∨ c.toNat = 0x3000

/-- Trim white space on both sides (`strings.TrimSpace`). -/
def trimSpace (l : List Char) : List Char :=
  ((l.dropWhile isSpace).reverse.dropWhile isSpace).reverse

/-- Upper-casing of a character as far as setting keys need it: the ASCII
letters, and the two other letters whose upper case is an ASCII letter
(dotless i and long s); any other character is left as it is. -/
def toUpperRune (c : Char) : Char :=
  if c.toNat = 0x131 then 'I' else if c.toNat = 0x17F then 'S' else c.toUpper

/-- A setting key as `gorm` normalises it: upper-cased and trimmed. -/
def settingKey (l : List Char) : String :=
  String.mk (trimSpace (l.map toUpperRune))

/-- The escape of `ParseTagSetting`: a piece that ends in a backslash is joined
to the piece after it, the backslash giving way to the separator.  A last piece
ending in a backslash has nothing to be joined to and is kept. -/
def mergeEscaped (sep : Char) (pieces : List (List Char)) : List (List Char) :=
  pieces.foldr (fun p acc =>
    match acc with
    | [] => [p]
    | q :: rest =>
      if p.getLast? = some bslash then (p.dropLast ++ sep :: q) :: rest else p :: acc) []

/-- The function `ParseTagSetting` of `gorm/schema`: the settings in order of
appearance; a later binding of a key overrides an earlier one. -/
def ParseTagSetting (str : String) (sep : Char) : List (String × String) :=
  (mergeEscaped sep (splitOn sep str.toList)).filterMap fun item =>
    match splitOn ':' item with
    | [] => none
    | [k] => if settingKey k = "" then none else some (settingKey k, settingKey k)
    | k :: v :: vs => some (settingKey k, String.mk (joinWith ':' (v :: vs)))

/-- Read a key of a settings map built by successive assignment. -/
def settingOf (settings : List (String × String)) (key : String) : Option String :=
  (settings.reverse.find? (fun kv => kv.1 = key)).map Prod.snd

/-- The column type a field declares (`gorm:"type:..."`), if any. -/
def gormType (f : StructField) : Option String :=
  settingOf (ParseTagSetting (StructTag_Get f.Tag "gorm") ';') "TYPE"

/-- An index a field takes part in: the explicit index name (`none` when the
naming strategy generates one from table and column) and whether it is unique. -/
structure FieldIndex where
  Name : Option String
  Unique : Bool
deriving DecidableEq

/-- The function `parseFieldIndexes` of `gorm/schema`: the `index` and
`uniqueIndex` settings of a field. -/
def parseFieldIndexes (f : StructField) : List FieldIndex :=
  (splitOn ';' (StructTag_Get f.Tag "gorm").toList).filterMap fun value =>
    match splitOn ':' value with
    | [] => none
    | k :: vs =>
      if value ≠ [] ∧ (settingKey k = "INDEX" ∨ settingKey k = "UNIQUEINDEX") then
        let tag := String.mk (joinWith ':' vs)
        let settings := ParseTagSetting (String.mk (joinWith ',' ((splitOn ',' tag.toList).tail))) ','
        some ⟨if tagName tag = "" then none else some (tagName tag),
              settingKey k = "UNIQUEINDEX" ∨ (settingOf settings "UNIQUE").getD "" ≠ ""⟩
      else none

/-- The fields of a schema that take part in the index of a given explicit
name, in declaration order (`Schema.ParseIndexes` groups fields by index name). -/
def indexFields (schema : List StructField) (index : String) : List String :=
  (schema.filter fun f => (parseFieldIndexes f).any fun i => i.Name = some index).map
    StructField.Name

/-- Whether the index of a given explicit name is declared unique by one of its
fields. -/
def indexUnique (schema : List StructField) (index : String) : Bool :=
  schema.any fun f => (parseFieldIndexes f).any fun i => i.Name = some index ∧ i.Unique

/-- A stored scalar that can take part in an index. -/
inductive ColumnValue where
  | text : String → ColumnValue
  | uint : Nat → ColumnValue
deriving DecidableEq

/-- The scalar a configuration stores under a Go field name; `none` for the
document column and for unknown names. -/
def columnValue (sc : GithubScopeConfig) (field : String) : Option ColumnValue :=
  if field = "ID" then some (.uint sc.ID)
  else if field = "ConnectionId" then some (.uint sc.ConnectionId)
  else if field = "Name" then some (.text sc.Name)
  else if field = "PrType" then some (.text sc.PrType)
  else if field = "PrComponent" then some (.text sc.PrComponent)
  else if field = "PrBodyClosePattern" then some (.text sc.PrBodyClosePattern)
  else if field = "IssueSeverity" then some (.text sc.IssueSeverity)
  else if field = "IssuePriority" then some (.text sc.IssuePriority)
  else if field = "IssueComponent" then some (.text sc.IssueComponent)
  else if field = "IssueTypeBug" then some (.text sc.IssueTypeBug)
  else if field = "IssueTypeIncident" then some (.text sc.IssueTypeIncident)
  else if field = "IssueTypeRequirement" then some (.text sc.IssueTypeRequirement)
  else if field = "DeploymentPattern" then some (.text sc.DeploymentPattern)
  else if field = "ProductionPattern" then some (.text sc.ProductionPattern)
  else if field = "EnvNamePattern" then some (.text sc.EnvNamePattern)
  else none

/-- The presence test of `validator` (`hasValue`): a string or an integer is
present when it is not the zero value, a map when it is not nil. -/
def hasValue (sc : GithubScopeConfig) (field : String) : Bool :=
  if field = "Refdiff" then sc.Refdiff.isSome
  else
    match columnValue sc field with
    | some (.text s) => s ≠ ""
    | some (.uint n) => n ≠ 0
    | none => false

/-- The rules a field declares: the comma-separated names of its `validate`
tag; no tag, an empty tag or `-` declare none. -/
def validateRules (f : StructField) : List String :=
  match StructTag_Lookup f.Tag "validate" with
  | none => []
  | some v =>
    if v = "-" then []
    else ((splitOn ',' v.toList).map String.mk).filter fun r => r ≠ ""

/-- Whether a rule holds of a field of a configuration.  `required` is the
presence test; any other rule name is unknown to this file and is refused. -/
def ruleHolds (sc : GithubScopeConfig) (field : String) (rule : String) : Bool :=
  if rule = "required" then hasValue sc field else false

/-- A validation failure: the Go field it is about and the rule that failed. -/
structure FieldError where
  Field : String
  Tag : String
deriving DecidableEq

/-- Check one field against its rules, reporting the first rule that fails. -/
def validateField (sc : GithubScopeConfig) (decl : String × List String) : List FieldError :=
  match decl.2.find? (fun r => !ruleHolds sc decl.1 r) with
  | some r => [⟨decl.1, r⟩]
  | none => []

/-- Validation of a configuration under the rules `GithubScopeConfig` declares
for its named fields: every failure, in declaration order. -/
def validateStruct (sc : GithubScopeConfig) : List FieldError :=
  ((GithubScopeConfig_fields.map fun f => (f.Name, validateRules f)).map
    (validateField sc)).flatten

/-- The Go names of the twelve pattern fields. -/
def patternFields : List String :=
  ["PrType", "PrComponent", "PrBodyClosePattern", "IssueSeverity", "IssuePriority",
   "IssueComponent", "IssueTypeBug", "IssueTypeIncident", "IssueTypeRequirement",
   "DeploymentPattern", "ProductionPattern", "EnvNamePattern"]

/-- A configuration with the given connection and name and nothing else set. -/
def bare (connectionId : Nat) (name : String) : GithubScopeConfig :=
  { ID := 0, ConnectionId := connectionId, Name := name, PrType := "", PrComponent := "",
    PrBodyClosePattern := "", IssueSeverity := "", IssuePriority := "", IssueComponent := "",
    IssueTypeBug := "", IssueTypeIncident := "", IssueTypeRequirement := "",
    DeploymentPattern := "", ProductionPattern := "", EnvNamePattern := "", Refdiff := none }

/-- Assign a value to the pattern field of a given Go name (other names leave
the configuration as it is). -/
def setPattern (sc : GithubScopeConfig) (field : String) (v : String) : GithubScopeConfig :=
  if field = "PrType" then { sc with PrType := v }
  else if field = "PrComponent" then { sc with PrComponent := v }
  else if field = "PrBodyClosePattern" then { sc with PrBodyClosePattern := v }
  else if field = "IssueSeverity" then { sc with IssueSeverity := v }
  else if field = "IssuePriority" then { sc with IssuePriority := v }
  else if field = "IssueComponent" then { sc with IssueComponent := v }
  else if field = "IssueTypeBug" then { sc with IssueTypeBug := v }
  else if field = "IssueTypeIncident" then { sc with IssueTypeIncident := v }
  else if field = "IssueTypeRequirement" then { sc with IssueTypeRequirement := v }
  else if field = "DeploymentPattern" then { sc with DeploymentPattern := v }
  else if field = "ProductionPattern" then { sc with ProductionPattern := v }
  else if field = "EnvNamePattern" then { sc with EnvNamePattern := v }
  else sc

/-- A call `sc.GetConnectionId()`: the receiver is passed by value and the body
is the single `return`, so the call yields the result together with the
caller's configuration as it stands after the call. -/
def GetConnectionId_call (sc : GithubScopeConfig) : Nat × GithubScopeConfig :=
  (GetConnectionId sc, sc)

/-! ## Shared lemmas -/

/-- The rules each named field declares, computed from the tags. -/
theorem declared_rules :
    (GithubScopeConfig_fields.map fun f => (f.Name, validateRules f)) =
      [("Name", ["required"]), ("PrType", []), ("PrComponent", []),
       ("PrBodyClosePattern", []), ("IssueSeverity", []), ("IssuePriority", []),
       ("IssueComponent", []), ("IssueTypeBug", []), ("IssueTypeIncident", []),
       ("IssueTypeRequirement", []), ("DeploymentPattern", []), ("ProductionPattern", []),
       ("EnvNamePattern", []), ("Refdiff", [])] := by
  decide

/-- Validation reduces to the single declared rule: the name must be present. -/
theorem validateStruct_eq (sc : GithubScopeConfig) :
    validateStruct sc = if sc.Name = "" then [⟨"Name", "required"⟩] else [] := by
  unfold validateStruct
  rw [declared_rules]
  by_cases h : sc.Name = "" <;>
    simp [validateField, ruleHolds, hasValue, columnValue, h]

/-- Assigning a pattern field leaves the name as it was. -/
theorem setPattern_Name (sc : GithubScopeConfig) (field v : String) :
    (setPattern sc field v).Name = sc.Name := by
  unfold setPattern
  simp only [apply_ite GithubScopeConfig.Name, ite_self]

/-- The named fields put exactly `Name` in the index `idx_name_github`. -/
theorem own_indexFields :
    indexFields GithubScopeConfig_fields "idx_name_github" = ["Name"] := by
  decide

/-- The named fields declare the index `idx_name_github` unique. -/
theorem own_indexUnique :
    indexUnique GithubScopeConfig_fields "idx_name_github" = true := by
  decide

/-- When the keys of a list are pairwise distinct, at most one element carries
a given key. -/
theorem filter_key_le_one {α β : Type} [DecidableEq β] (g : α → β) (k : β) :
    ∀ l : List α, (l.map g).Nodup → (l.filter fun x => g x = k).length ≤ 1
  | [], _ => by simp
  | x :: xs, h => by
    rw [List.map_cons, List.nodup_cons] at h
    by_cases hx : g x = k
    · have hnil : (xs.filter fun y => g y = k) = [] := by
        rw [List.filter_eq_nil_iff]
        intro y hy hyk
        apply h.1
        rw [hx, ← of_decide_eq_true hyk]
        exact List.mem_map_of_mem g hy
      simp [List.filter_cons, hx, hnil]
    · simpa [List.filter_cons, hx] using filter_key_le_one g k xs h.2

/-! ## The accessor and the storage name -/

/-- C1: for every configuration `GetConnectionId` returns exactly its
`ConnectionId`; it is a total function, a call leaves the caller's configuration
as it was, and a configuration built with connection 7 and name "default" yields 7. -/
theorem GetConnectionId_returns_field (sc : GithubScopeConfig) :
    GetConnectionId sc = sc.ConnectionId ∧
    GetConnectionId_call sc = (sc.ConnectionId, sc) ∧
    GetConnectionId (bare 7 "default") = 7 :=
  ⟨rfl, rfl, rfl⟩

/-- C2: `TableName` does not depend on its receiver: any two configurations
give the same storage name, the non-empty text `_tool_github_scope_configs`. -/
theorem TableName_static (a b : GithubScopeConfig) :
    TableName a = TableName b ∧ TableName a = "_tool_github_scope_configs" ∧
    TableName a ≠ "" :=
  ⟨rfl, rfl, by unfold TableName; decide⟩

/-- C9: `GetConnectionId` depends on `ConnectionId` alone: configurations with
equal connection identifiers give equal results whatever their other fields,
and configurations with different connection identifiers give different results. -/
theorem GetConnectionId_only_connection (a b : GithubScopeConfig) :
    (a.ConnectionId = b.ConnectionId → GetConnectionId a = GetConnectionId b) ∧
    (a.ConnectionId ≠ b.ConnectionId → GetConnectionId a ≠ GetConnectionId b) :=
  ⟨fun h => h, fun h => h⟩

/-- Witness for C9: two configurations of connection 7 that differ in name,
a pattern and the document read alike, and connections 7 and 8 read apart. -/
theorem GetConnectionId_only_connection_witness :
    (bare 7 "default").Name ≠ (setPattern { bare 7 "other" with Refdiff := some [] } "PrType" "x").Name ∧
    GetConnectionId (bare 7 "default") =
      GetConnectionId (setPattern { bare 7 "other" with Refdiff := some [] } "PrType" "x") ∧
    GetConnectionId (bare 7 "default") ≠ GetConnectionId (bare 8 "default") :=
  ⟨by decide,
   (GetConnectionId_only_connection (bare 7 "default")
      (setPattern { bare 7 "other" with Refdiff := some [] } "PrType" "x")).1 rfl,
   (GetConnectionId_only_connection (bare 7 "default") (bare 8 "default")).2 (by decide)⟩

/-! ## The unique index -/

/-- C4: a configuration whose name is empty fails validation under the rules
the entity declares, every reported failure is the `required` rule of the field
`Name`, whose external key is `name`; with a non-empty name no failure is about
`Name`. -/
theorem missing_name_rejected (sc : GithubScopeConfig) :
    (sc.Name = "" →
      validateStruct sc ≠ [] ∧ (⟨"Name", "required"⟩ : FieldError) ∈ validateStruct sc ∧
      ∀ e ∈ validateStruct sc, e.Field = "Name") ∧
    (sc.Name ≠ "" → ∀ e ∈ validateStruct sc, e.Field ≠ "Name") ∧
    (GithubScopeConfig_fields.filter fun f => f.Name = "Name").map jsonKey = [some "name"] := by
  refine ⟨fun h => ?_, fun h => ?_, by decide⟩
  · rw [validateStruct_eq, if_pos h]
    simp
  · rw [validateStruct_eq, if_neg h]
    simp

/-- Witness for C4: the configuration of connection 7 with an empty name is
rejected on `Name`, the one named "default" is not. -/
theorem missing_name_rejected_witness :
    (⟨"Name", "required"⟩ : FieldError) ∈ validateStruct (bare 7 "") ∧
    ∀ e ∈ validateStruct (bare 7 "default"), e.Field ≠ "Name" :=
  ⟨((missing_name_rejected (bare 7 "")).1 rfl).2.1,
   (missing_name_rejected (bare 7 "default")).2.1 (by decide)⟩

/-- C5, as stated, fails: for each of the twelve pattern fields, the
configuration named "default" that holds the unbalanced group `(` in that field
passes validation under the rules the entity declares. -/
theorem invalid_pattern_accepted :
    (patternFields.all fun field =>
      (setPattern (bare 7 "default") field "(").Name = "default" ∧
      columnValue (setPattern (bare 7 "default") field "(") field = some (.text "(") ∧
      validateStruct (setPattern (bare 7 "default") field "(") = []) = true := by
  decide

/-- C5, amended: the entity declares no validation rule on any of its twelve
pattern fields, so a configuration with a non-empty name passes validation
under the declared rules whatever text is assigned to a pattern field. -/
theorem pattern_fields_unvalidated (sc : GithubScopeConfig) (field v : String)
    (hn : sc.Name ≠ "") :
    validateStruct (setPattern sc field v) = [] ∧
    ((GithubScopeConfig_fields.filter fun f => f.Name ∈ patternFields).map
      fun f => (f.Name, validateRules f)) = patternFields.map fun n => (n, []) := by
  refine ⟨?_, by decide⟩
  rw [validateStruct_eq, setPattern_Name, if_neg hn]

/-- Witness for C5 amended: `(` as deployment pattern of a named configuration. -/
theorem pattern_fields_unvalidated_witness :
    (setPattern (bare 7 "default") "DeploymentPattern" "(").DeploymentPattern = "(" ∧
    validateStruct (setPattern (bare 7 "default") "DeploymentPattern" "(") = [] :=
  ⟨by decide,
   (pattern_fields_unvalidated (bare 7 "default") "DeploymentPattern" "(" (by decide)).1⟩

/-- C6: a configuration with a non-empty name, every pattern field empty and no
`Refdiff` passes validation under the rules the entity declares, and `Name` is
the only named field that declares the rule `required`. -/
theorem absent_patterns_validate (sc : GithubScopeConfig) (hn : sc.Name ≠ "")
    (_hp : ∀ field ∈ patternFields, columnValue sc field = some (.text ""))
    (_hr : sc.Refdiff = none) :
    validateStruct sc = [] ∧
    (GithubScopeConfig_fields.filter fun f => "required" ∈ validateRules f).map
      StructField.Name = ["Name"] := by
  refine ⟨?_, by decide⟩
  rw [validateStruct_eq, if_neg hn]

/-- Witness for C6: the configuration of connection 7 named "default" with
nothing else set. -/
theorem absent_patterns_validate_witness :
    validateStruct (bare 7 "default") = [] :=
  (absent_patterns_validate (bare 7 "default") (by decide) (by decide) rfl).1

/-! ## Storage columns and external keys -/

/-- C7: `Name` and the twelve pattern fields are declared with the column type
`varchar(255)`; `Refdiff` is the only named field without it, and it declares
no column type at all. -/
theorem storage_columns :
    (GithubScopeConfig_fields.filter fun f => gormType f = some "varchar(255)").map
      StructField.Name = "Name" :: patternFields ∧
    (GithubScopeConfig_fields.filter fun f => gormType f ≠ some "varchar(255)").map
      (fun f => (f.Name, f.GoType, gormType f)) = [("Refdiff", "datatypes.JSONMap", none)] := by
  decide

/-- C8: for every named field the JSON key and the mapstructure key are the
same text, and that text is the Go field name with its first letter lower-cased. -/
theorem keys_aligned (f : StructField) (hf : f ∈ GithubScopeConfig_fields) :
    jsonKey f = some (mapstructureKey f) ∧ mapstructureKey f = lowerFirst f.Name := by
  revert f
  decide

/-- Witness for C8: the field `IssueTypeBug` is bound under `issueTypeBug`. -/
theorem keys_aligned_witness :
    jsonKey ⟨"IssueTypeBug", "string", r#"mapstructure:"issueTypeBug,omitempty" json:"issueTypeBug" gorm:"type:varchar(255)""#⟩
      = some "issueTypeBug" :=
  ((keys_aligned ⟨"IssueTypeBug", "string", r#"mapstructure:"issueTypeBug,omitempty" json:"issueTypeBug" gorm:"type:varchar(255)""#⟩
    (by decide)).1).trans (by decide)

/-- C10: the fourteen external keys of the named fields are the listed ones and
are pairwise distinct, in the JSON and in the mapstructure representation, so
any key selects at most one field and each listed key selects exactly one. -/
theorem keys_distinct (key : String) :
    GithubScopeConfig_fields.map jsonKey =
      ["name", "prType", "prComponent", "prBodyClosePattern", "issueSeverity",
       "issuePriority", "issueComponent", "issueTypeBug", "issueTypeIncident",
       "issueTypeRequirement", "deploymentPattern", "productionPattern", "envNamePattern",
       "refdiff"].map some ∧
    GithubScopeConfig_fields.map mapstructureKey =
      ["name", "prType", "prComponent", "prBodyClosePattern", "issueSeverity",
       "issuePriority", "issueComponent", "issueTypeBug", "issueTypeIncident",
       "issueTypeRequirement", "deploymentPattern", "productionPattern", "envNamePattern",
       "refdiff"] ∧
    (GithubScopeConfig_fields.map jsonKey).Nodup ∧
    (GithubScopeConfig_fields.map mapstructureKey).Nodup ∧
    (GithubScopeConfig_fields.filter fun f => jsonKey f = some key).length ≤ 1 ∧
    (GithubScopeConfig_fields.filter fun f => mapstructureKey f = key).length ≤ 1 ∧
    ((GithubScopeConfig_fields.map mapstructureKey).all fun k =>
      (GithubScopeConfig_fields.filter fun f => jsonKey f = some k).length = 1 ∧
      (GithubScopeConfig_fields.filter fun f => mapstructureKey f = k).length = 1) = true := by
  have hj : (GithubScopeConfig_fields.map jsonKey).Nodup := by decide
  have hm : (GithubScopeConfig_fields.map mapstructureKey).Nodup := by decide
  exact ⟨by decide, by decide, hj, hm,
    filter_key_le_one jsonKey (some key) GithubScopeConfig_fields hj,
    filter_key_le_one mapstructureKey key GithubScopeConfig_fields hm, by decide⟩

end Github
